import Mathlib

/-!
Shallow embedding of the scientific-loop core of the black-box
web-intelligence backend (`src/backend`): the hypothesis store and its
confidence calculus, the supervisor termination logic, the interceptor
traffic classifier, the schema merger, the verifier probe construction
and the FSM store.

Modelling conventions, applied throughout:
* Python `float` confidence arithmetic is modelled over `ℚ` (all the
  constants involved are decimal literals, exact in `ℚ`);
* `datetime` timestamp fields are omitted (no claim mentions them);
* `uuid4()` identifiers are modelled by a fresh counter held in the store;
* Python dicts used as records become structures whose field defaults
  model absent keys; dicts used as key-value maps become association
  lists (Python dict keys are unique and insertion-ordered).
-/

namespace BBWI

/-- Hypothesis kinds, from `core/models.py` `HypothesisType`. -/
inductive HypothesisType where
  | endpointSchema
  | businessRule
  | stateTransition
  | permissionGate
  | rateLimit
  | fieldConstraint
deriving DecidableEq

/-- Hypothesis lifecycle states, from `core/models.py` `HypothesisStatus`. -/
inductive HypothesisStatus where
  | active
  | challenged
  | confirmed
  | falsified
  | needsRevision
deriving DecidableEq

/-- Probe outcomes, from `core/models.py` `ProbeOutcome`. -/
inductive ProbeOutcome where
  | confirmed
  | falsified
  | inconclusive
deriving DecidableEq

/-- Critic verdicts, from `core/models.py` `CriticVerdict`. -/
inductive CriticVerdict where
  | accept
  | challenge
  | reject
deriving DecidableEq

/-- Confidence event kinds, from `core/models.py` `ConfidenceEventType`. -/
inductive ConfidenceEventType where
  | initialInference
  | evidenceAdded
  | criticChallenge
  | probeConfirmed
  | probeFalsified
  | probeInconclusive
  | manualOverride
deriving DecidableEq

/-- Evidence reference, from `core/models.py` `EvidenceRef`
(timestamp omitted; `strength` is one of "strong"/"moderate"/"weak"). -/
structure EvidenceRef where
  observationId : String
  summary : String
  strength : String
deriving DecidableEq

/-- Competing explanation, from `core/models.py` `CompetingExplanation`. -/
structure CompetingExplanation where
  description : String
  plausibility : ℚ
  distinguishingTest : String
deriving DecidableEq

/-- Confidence event, from `core/models.py` `ConfidenceEvent` (timestamp omitted). -/
structure ConfidenceEvent where
  eventType : ConfidenceEventType
  oldConfidence : ℚ
  newConfidence : ℚ
  reason : String
  agent : String
deriving DecidableEq

/-- Hypothesis record, from `core/models.py` `Hypothesis`.  Fields not
touched by any claim (timestamps, `formal_definition`, request/response
schemas, `field_semantics`, `rule_type`, `trigger_conditions`,
`observed_response`) are omitted. -/
structure Hypothesis where
  id : Nat
  type : HypothesisType
  description : String
  endpointPattern : Option String
  method : Option String
  supportingEvidence : List EvidenceRef
  contradictingEvidence : List EvidenceRef
  competingExplanations : List CompetingExplanation
  untestedAssumptions : List String
  confidence : ℚ
  confidenceHistory : List ConfidenceEvent
  status : HypothesisStatus
  revision : Nat
  createdBy : String
  lastModifiedBy : String
deriving DecidableEq

/-- Critic evaluation, from `core/models.py` `CriticEvaluation`
(`required_probes`, `required_exploration` and the timestamp are omitted:
no claim reads them through the store mutators). -/
structure CriticEvaluation where
  hypothesisId : Nat
  verdict : CriticVerdict
  alternativeExplanations : List String
  untestedAssumptions : List String
  missingEvidence : List String
  contradictions : List String
  originalConfidence : ℚ
  recommendedConfidence : ℚ
  adjustmentReason : String
deriving DecidableEq

/-- Initial confidence from evidence quantity and quality,
`ConfidenceCalculator.initial_confidence` (`hypothesis_store.py` lines 37-70):
base 0.2 / 0.35 / 0.5 / 0.6 by evidence count, minus 0.1 per competing
explanation and 0.05 per untested assumption, clamped to [0.1, 1.0]. -/
def initialConfidence (evidenceCount competingCount untestedCount : Nat) : ℚ :=
  let base : ℚ :=
    if evidenceCount = 1 then 1/5
    else if evidenceCount = 2 then 7/20
    else if evidenceCount ≤ 5 then 1/2
    else 3/5
  max (1/10) (min 1 (base - competingCount * (1/10) - untestedCount * (1/20)))

/-- Critic adjustment rule, `ConfidenceCalculator.apply_critic_review`
(`hypothesis_store.py` lines 72-90): reject → 0.3·old, challenge →
min(old, recommended), accept → min(1.0, 1.1·old). -/
def applyCriticReview (current : ℚ) (review : CriticEvaluation) : ℚ :=
  match review.verdict with
  | .reject => current * (3/10)
  | .challenge => min current review.recommendedConfidence
  | .accept => min 1 (current * (11/10))

/-- Probe adjustment rule, `ConfidenceCalculator.apply_probe_result`
(`hypothesis_store.py` lines 92-111): confirmed → old + 0.2·(1 − old),
falsified → 0.5·old, inconclusive → 0.95·old. -/
def applyProbeResult (current : ℚ) (outcome : ProbeOutcome) : ℚ :=
  match outcome with
  | .confirmed => current + (1 - current) * (1/5)
  | .falsified => current * (1/2)
  | .inconclusive => current * (19/20)

/-- In-memory hypothesis store, `HypothesisStore.__init__`
(`hypothesis_store.py` lines 114-129).  The Python `dict[str, Hypothesis]`
keyed by fresh `uuid4` strings is modelled as an insertion-ordered list
plus a fresh-id counter. -/
structure HypothesisStore where
  hypotheses : List Hypothesis
  nextId : Nat
deriving DecidableEq

/-- Keyword arguments accepted by `HypothesisStore.create`
(`hypothesis_store.py` lines 131-225).  Field defaults model absent
keys.  `supportingEvidence` models the `supporting_evidence` kwarg,
whose elements may be strings or `EvidenceRef` objects. -/
structure CreateKwargs where
  status : HypothesisStatus := .active
  confidence : Option ℚ := none
  supportingEvidence : List (Sum String EvidenceRef) := []
  competingExplanations : List CompetingExplanation := []
  untestedAssumptions : List String := []
  endpointPattern : Option String := none
  method : Option String := none
deriving DecidableEq

/-- Creation of a hypothesis, `HypothesisStore.create`
(`hypothesis_store.py` lines 131-225).  String entries of
`supporting_evidence` are wrapped as moderate-strength `EvidenceRef`s and
appended to `evidence`; the initial confidence is the `confidence` kwarg
verbatim when present (the pydantic `Hypothesis.confidence` field bound
restricts it to [0,1]; there is no clamp to [0.1,1.0] on this path),
otherwise `initialConfidence`; `competing_explanations` and
`untested_assumptions` are removed from the kwargs before the
`Hypothesis` is constructed, so the created hypothesis has empty lists
there; exactly one `initial_inference` confidence event is recorded;
the hypothesis is stored unconditionally — there is no duplicate check
of any kind. -/
def HypothesisStore.create (store : HypothesisStore) (type : HypothesisType)
    (description : String) (createdBy : String) (evidence : List EvidenceRef)
    (kw : CreateKwargs) : Hypothesis × HypothesisStore :=
  let evidence := evidence ++ kw.supportingEvidence.map (fun e =>
    match e with
    | .inl s => { observationId := "", summary := s, strength := "moderate" }
    | .inr r => r)
  let initialConf : ℚ :=
    match kw.confidence with
    | some c => c
    | none => initialConfidence evidence.length kw.competingExplanations.length
        kw.untestedAssumptions.length
  let h : Hypothesis := {
    id := store.nextId
    type := type
    description := description
    endpointPattern := kw.endpointPattern
    method := kw.method
    supportingEvidence := evidence
    contradictingEvidence := []
    competingExplanations := []
    untestedAssumptions := []
    confidence := initialConf
    confidenceHistory := [{
      eventType := .initialInference
      oldConfidence := 0
      newConfidence := initialConf
      reason := "Initial inference with " ++ toString evidence.length ++ " observations"
      agent := createdBy }]
    status := kw.status
    revision := 1
    createdBy := createdBy
    lastModifiedBy := createdBy }
  (h, { hypotheses := store.hypotheses ++ [h], nextId := store.nextId + 1 })

/-- Per-hypothesis body of `HypothesisStore.apply_critic_evaluation`
(`hypothesis_store.py` lines 351-412): compute the adjusted confidence,
append the alternative explanations of the review that are not already present
(deduplicated by exact description, against the growing list), extend
the untested assumptions by those not already present (the membership
test runs against the pre-extension list), set the confidence, append one
`critic_challenge` event, flip the status to `needs_revision` when the
new confidence falls below the revision threshold 0.2, and bump the
revision counter. -/
def applyCriticEvaluationHyp (h : Hypothesis) (evaluation : CriticEvaluation) : Hypothesis :=
  let oldConf := h.confidence
  let newConf := applyCriticReview oldConf evaluation
  let competing := evaluation.alternativeExplanations.foldl
    (fun acc alt =>
      if acc.any (fun ce => ce.description = alt) then acc
      else acc ++ [{ description := alt, plausibility := 1/2,
                     distinguishingTest := "Requires further investigation" }])
    h.competingExplanations
  let untested := h.untestedAssumptions ++
    evaluation.untestedAssumptions.filter (fun a => ¬ h.untestedAssumptions.contains a)
  { h with
    competingExplanations := competing
    untestedAssumptions := untested
    confidence := newConf
    confidenceHistory := h.confidenceHistory ++ [{
      eventType := .criticChallenge
      oldConfidence := oldConf
      newConfidence := newConf
      reason := evaluation.adjustmentReason
      agent := "critic" }]
    status := if newConf < 1/5 then HypothesisStatus.needsRevision else h.status
    revision := h.revision + 1
    lastModifiedBy := "critic" }

/-- Store-level `HypothesisStore.apply_critic_evaluation`: dictionary
lookup by id, then the per-hypothesis mutation; `none` when absent. -/
def HypothesisStore.applyCriticEvaluation (store : HypothesisStore) (hypothesisId : Nat)
    (evaluation : CriticEvaluation) : Option Hypothesis × HypothesisStore :=
  match store.hypotheses.find? (fun h => h.id = hypothesisId) with
  | none => (none, store)
  | some h =>
    let h1 := applyCriticEvaluationHyp h evaluation
    (some h1, { store with
      hypotheses := store.hypotheses.map (fun g => if g.id = hypothesisId then h1 else g) })

/-! Supervisor termination.  Two code paths exist: the LangGraph
supervisor (`agents/supervisor.py`), which is never invoked by the
application, and the live session driver `_run_exploration_loop`
(`api/routes/control.py`, started from `start_exploration`), which
actually drives every session.  Both are embedded; the claims about
session termination are settled against the live driver. -/

/-- Slice of the LangGraph `AgentState` read by the (dead) supervisor
termination logic: `loop_iteration`, `error_count` and the configured
`max_loop_iterations`. -/
structure SupervisorState where
  loopIteration : Nat
  errorCount : Nat
  maxLoopIterations : Nat
deriving DecidableEq

/-- Reasons returned by the termination checks (the source returns
descriptive strings; only their identity matters here). -/
inductive TerminationReason where
  | maxIterationsReached
  | tooManyErrors
deriving DecidableEq

/-- Termination check, `Supervisor._check_termination`
(`supervisor.py` lines 194-218): stop when the iteration counter has
reached the configured maximum or the error count exceeds 10; the
hypothesis-confidence check is left as a comment in the source.  This
code path is not reached by the live driver. -/
def checkTermination (s : SupervisorState) : Option TerminationReason :=
  if s.loopIteration ≥ s.maxLoopIterations then some .maxIterationsReached
  else if s.errorCount > 10 then some .tooManyErrors
  else none

/-- Graph-node termination check, `_termination_check_node`
(`supervisor.py` lines 356-388), returned as the `should_stop` flag it
computes: the same two conditions, evaluated in sequence.  This code
path is not reached by the live driver. -/
def terminationCheckNode (s : SupervisorState) : Bool :=
  (s.loopIteration ≥ s.maxLoopIterations) || (s.errorCount > 10)

/-- The confirmed-hypothesis count of the live driver,
`confirmed = [h for h in hypotheses if h.status == CONFIRMED]`
(`control.py` line 906). -/
def confirmedCount (hypotheses : List Hypothesis) : Nat :=
  (hypotheses.filter (fun h => decide (h.status = HypothesisStatus.confirmed))).length

/-- The mean confidence of the live driver,
`avg_confidence = sum(h.confidence for h in hypotheses) / len(hypotheses)`
(`control.py` line 907). -/
def meanConfidence (hypotheses : List Hypothesis) : ℚ :=
  (hypotheses.map (fun h => h.confidence)).sum / (hypotheses.length : ℚ)

/-- The after-update termination decision of the live session driver,
`_run_exploration_loop` update phase (`control.py` lines 899-911): break
out of the exploration loop when more than fifteen consecutive explore
steps produced no new observation, or when there is at least one
hypothesis, more than 5 are confirmed, and the mean confidence over all
hypotheses exceeds 0.8.  No error counter exists in this driver: a
phase exception is printed and the loop advances to the next phase
(`control.py` lines 919-923). -/
def updatePhaseShouldStop (consecutiveNoNew : Nat) (hypotheses : List Hypothesis) : Bool :=
  if consecutiveNoNew > 15 then true
  else if hypotheses.length > 0 then
    decide (confirmedCount hypotheses > 5) && decide (meanConfidence hypotheses > 4/5)
  else false

/-- The iteration budget of the live driver,
`max_iterations = min(session.config.max_iterations, 100)`
(`control.py` line 295): the `for iteration in range(max_iterations)`
loop runs at most this many iterations, whatever the configured
maximum. -/
def explorationLoopBound (configMax : Nat) : Nat := min configMax 100

/-! Interceptor (`agents/interceptor.py`). -/

/-- Substring containment over character lists: Python `needle in s`. -/
def charsContains (pat : List Char) : List Char → Bool
  | [] => pat.isEmpty
  | c :: rest => pat.isPrefixOf (c :: rest) || charsContains pat rest

/-- Python `needle in s` on strings. -/
def strContains (s pat : String) : Bool := charsContains pat.data s.data

/-- Python `str.lower()`, character by character (the data involved —
URLs and header values — is ASCII). -/
def strLower (s : String) : String := String.mk (s.data.map Char.toLower)

/-- Network observation slice read by the relevance check of the interceptor:
URL, response status (0 meaning no response), and the
`content-type` response header (empty when absent). -/
structure NetworkObservation where
  url : String
  statusCode : Nat
  contentType : String
deriving DecidableEq

/-- Static-asset substrings skipped by the interceptor
(`interceptor.py` lines 121-128). -/
def staticPatterns : List String :=
  [".js", ".css", ".png", ".jpg", ".gif", ".svg", ".woff", ".ico", ".webp", ".mp4", ".mp3"]

/-- Tracker substrings skipped by the interceptor
(`interceptor.py` lines 130-137). -/
def trackerPatterns : List String :=
  ["google-analytics", "googletagmanager", "facebook", "hotjar", "mixpanel",
   "segment", "doubleclick"]

/-- API-path substrings accepted by the interceptor
(`interceptor.py` line 140). -/
def apiPatterns : List String :=
  ["/api/", "/v1/", "/v2/", "/graphql", "/rest/", "/data/"]

/-- Relevance check, `InterceptorAgent._is_relevant_api_call`
(`interceptor.py` lines 106-151): lowercase the URL; reject when there
is no response (status 0); reject when any static-asset substring or any
tracker substring occurs anywhere in the URL; accept when any API-path
substring occurs in the URL; accept when the lowercased `content-type`
contains `application/json` or `application/xml`; otherwise reject. -/
def isRelevantApiCall (obs : NetworkObservation) : Bool :=
  let url := strLower obs.url
  if obs.statusCode = 0 then false
  else if staticPatterns.any (fun p => strContains url p) then false
  else if trackerPatterns.any (fun t => strContains url t) then false
  else if apiPatterns.any (fun p => strContains url p) then true
  else
    let contentType := strLower obs.contentType
    if strContains contentType "application/json" then true
    else if strContains contentType "application/xml" then true
    else false

/-! Critic fallback (`agents/critic.py`). -/

/-- Deterministic fallback review produced when the language-model
provider is unavailable, modelling the dictionary returned by
`CriticAgent._fallback_evaluation` (`critic.py` lines 279-322);
the `required_probes` / `required_exploration` entries are omitted. -/
structure FallbackEvaluation where
  verdict : CriticVerdict
  alternativeExplanations : List String
  untestedAssumptions : List String
  missingEvidence : List String
  contradictions : List String
  recommendedConfidence : ℚ
  adjustmentReason : String
deriving DecidableEq

/-- Fallback review, `CriticAgent._fallback_evaluation`
(`critic.py` lines 279-322): the recommended confidence is
`min(current_conf, cap)` with cap 0.3 / 0.5 / 0.7 by evidence count;
the verdict is `challenge` except for `accept` on more than 3
observations with current confidence at least 0.6; exactly two generic
alternative explanations are attached. -/
def fallbackEvaluation (evidenceCount : Nat) (currentConf : ℚ) : FallbackEvaluation :=
  let recommended : ℚ :=
    if evidenceCount ≤ 1 then min currentConf (3/10)
    else if evidenceCount ≤ 3 then min currentConf (1/2)
    else min currentConf (7/10)
  let verdict : CriticVerdict :=
    if evidenceCount ≤ 1 then .challenge
    else if evidenceCount ≤ 3 then .challenge
    else if currentConf ≥ 3/5 then .accept else .challenge
  { verdict := verdict
    alternativeExplanations :=
      ["Evidence may be coincidental", "Observed behavior may be context-dependent"]
    untestedAssumptions :=
      ["Assumes consistent API behavior", "Limited observation sample"]
    missingEvidence := ["Need more diverse test cases", "Need negative test cases"]
    contradictions := []
    recommendedConfidence := recommended
    adjustmentReason :=
      "Conservative evaluation: " ++ toString evidenceCount ++ " observations supporting" }

/-! Verifier probe construction (`agents/verifier.py`). -/

/-- Probe kinds, from `core/models.py` `ProbeType`. -/
inductive ProbeKind where
  | replayExact
  | mutateField
  | omitField
  | addField
  | changeType
  | boundaryValue
  | sequenceBreak
  | authVariation
deriving DecidableEq

/-- Header construction inside `VerifierAgent._build_probe_request`
(`verifier.py` lines 200-217): start from the Content-Type / Accept
pair merged with the stored auth headers, and for an `auth_variation`
probe drop every header whose lowercased name is `authorization` or
`cookie`.  The body-mutating probe branches (omit_field, boundary_value,
change_type) do not touch headers and are not modelled. -/
def probeHeaders (probeKind : ProbeKind) (authHeaders : List (String × String)) :
    List (String × String) :=
  let headers := [("Content-Type", "application/json"),
                  ("Accept", "application/json")] ++ authHeaders
  match probeKind with
  | .authVariation =>
      headers.filter (fun kv =>
        !(strLower kv.1 == "authorization" || strLower kv.1 == "cookie"))
  | _ => headers

/-- The HTTP request as actually handed to the client, with the cookie
jar passed alongside the headers. -/
structure SentProbeRequest where
  method : String
  url : String
  headers : List (String × String)
  cookies : List (String × String)
deriving DecidableEq

/-- Request execution, `VerifierAgent._execute_probe`
(`verifier.py` lines 122-132): `client.request(...)` is always invoked
with `cookies=self.cookies`, i.e. the stored cookie jar of the Verifier is
attached to every probe request, whatever the probe kind. -/
def executeProbeRequest (verifierCookies : List (String × String))
    (method url : String) (headers : List (String × String)) : SentProbeRequest :=
  { method := method, url := url, headers := headers, cookies := verifierCookies }

/-! FSM store (`memory/fsm_store.py`). -/

/-- A stored transition row, from the `transitions` table
(`fsm_store.py` lines 61-73); timestamps omitted, `action_data` and
`triggered_apis` kept as the serialised option strings. -/
structure FSMTransition where
  sessionId : String
  fromStateHash : String
  toStateHash : String
  actionType : String
  actionTarget : String
  success : Bool
deriving DecidableEq

/-- FSM store state: the `page_states` table is modelled by its primary
keys (state hashes), the `transitions` table by an insertion-ordered
list.  The source never issues `PRAGMA foreign_keys`, so the
`REFERENCES page_states(state_hash)` clauses in the table definitions
(`fsm_store.py` lines 61-73) are not enforced by SQLite. -/
structure FSMStore where
  pageStates : List String
  transitions : List FSMTransition
deriving DecidableEq

/-- Transition insertion, `FSMStore.add_transition`
(`fsm_store.py` lines 293-327): a single unconditional `INSERT` of the
row; neither state hash is looked up in the `page_states` table.
Returns the stored row id (`lastrowid`) with the updated store. -/
def FSMStore.addTransition (store : FSMStore) (sessionId fromStateHash toStateHash
    actionType actionTarget : String) (success : Bool) : Nat × FSMStore :=
  let t : FSMTransition := {
    sessionId := sessionId
    fromStateHash := fromStateHash
    toStateHash := toStateHash
    actionType := actionType
    actionTarget := actionTarget
    success := success }
  (store.transitions.length + 1, { store with transitions := store.transitions ++ [t] })

/-! Schema merger (`inference/schema_merger.py`). -/

/-- A JSON schema as the Python dicts of the merger represent it: the keys
`type`, `format`, `properties`, `required`, `items`, `anyOf` and
`nullable` are the only ones the merger reads or writes.  The default value of a field models the absence of the key (`nullable` only ever
appears with value `True`). -/
inductive JSchema where
  | mk (type : Option String) (format : Option String)
       (properties : List (String × JSchema)) (required : List String)
       (items : Option JSchema) (anyOf : List JSchema) (nullable : Bool)

/-- The `type` entry of a schema dict (`schema.get("type")`). -/
def JSchema.type : JSchema → Option String
  | .mk t _ _ _ _ _ _ => t

/-- The `items` entry of a schema dict. -/
def JSchema.items : JSchema → Option JSchema
  | .mk _ _ _ _ i _ _ => i

/-- The `properties` entry of a schema dict. -/
def JSchema.properties : JSchema → List (String × JSchema)
  | .mk _ _ p _ _ _ _ => p

/-- The `required` entry of a schema dict. -/
def JSchema.required : JSchema → List String
  | .mk _ _ _ r _ _ _ => r

/-- The `anyOf` entry of a schema dict. -/
def JSchema.anyOf : JSchema → List JSchema
  | .mk _ _ _ _ _ a _ => a

/-- The `nullable` entry of a schema dict. -/
def JSchema.nullable : JSchema → Bool
  | .mk _ _ _ _ _ _ n => n

/-- The empty schema dict `{}`. -/
def emptySchema : JSchema := .mk none none [] [] none [] false

/-- Python dict membership and lookup, `props[key]`, over the
association-list model of a `properties` dict. -/
def findProp (key : String) : List (String × JSchema) → Option JSchema
  | [] => none
  | (k, v) :: rest => if k = key then some v else findProp key rest

theorem sizeOf_findProp {key : String} {ps : List (String × JSchema)} {v : JSchema}
    (h : findProp key ps = some v) : sizeOf v < sizeOf ps := by
  induction ps with
  | nil => simp [findProp] at h
  | cons p rest ih =>
    obtain ⟨k, w⟩ := p
    simp only [findProp] at h
    split at h
    · cases h; simp; omega
    · have := ih h; simp; omega

theorem emptySchema_sizeOf_le (s : JSchema) : sizeOf emptySchema ≤ sizeOf s := by
  cases s with
  | mk t f p r i a n =>
    have h1 : 1 ≤ sizeOf t := by cases t <;> simp <;> omega
    have h2 : 1 ≤ sizeOf f := by cases f <;> simp <;> omega
    have h3 : 1 ≤ sizeOf p := by cases p <;> simp <;> omega
    have h4 : 1 ≤ sizeOf r := by cases r <;> simp <;> omega
    have h5 : 1 ≤ sizeOf i := by cases i <;> simp <;> omega
    have h6 : 1 ≤ sizeOf a := by cases a <;> simp <;> omega
    simp [emptySchema]
    omega

mutual

/-- Union merge of two schemas, `SchemaMerger._merge_schemas`
(`schema_merger.py` lines 177-225), with `_merge_object_schemas` and
`_merge_array_schemas` (lines 226-291) inlined into the same-type
branches.  The branch order follows the source: same type first (deep
merge for objects and arrays, keep `schema1` for primitives), then
`anyOf` whenever both `type` entries are present (`if type1 and type2`),
then the nullable-marking branches for a `null` type (reachable only
when the other side has no `type` entry), then
`deepcopy(schema1) or deepcopy(schema2)`.  The Python expression
`sorted(req1 & req2)` becomes the ascending sort of the deduplicated
intersection; dict keys are unique, so merging the `properties` of
distinct keys never interacts. -/
def mergeSchemas (s1 s2 : JSchema) : JSchema :=
  match s1, s2 with
  | .mk t1 f1 p1 r1 i1 a1 n1, .mk t2 f2 p2 r2 i2 a2 n2 =>
    if t1 = t2 then
      if t1 = some "object" then
        let mergedProps := mergePropsFrom p2 p1 ++
          p2.filter (fun kv => (findProp kv.1 p1).isNone)
        let mergedRequired :=
          ((r1.filter (fun x => r2.contains x)).dedup).mergeSort (fun a b => a ≤ b)
        .mk (some "object") none mergedProps mergedRequired none [] false
      else if t1 = some "array" then
        let mergedItems :=
          match i1, i2 with
          | some a, some b => mergeSchemas a b
          | some a, none => mergeSchemas a emptySchema
          | none, some b => mergeSchemas emptySchema b
          | none, none => emptySchema
        .mk (some "array") none [] [] (some mergedItems) [] false
      else
        .mk t1 f1 p1 r1 i1 a1 n1
    else if t1.isSome && t2.isSome then
      .mk none none [] [] none
        [.mk t1 f1 p1 r1 i1 a1 n1, .mk t2 f2 p2 r2 i2 a2 n2] false
    else if t1 = some "null" then
      .mk t2 f2 p2 r2 i2 a2 true
    else if t2 = some "null" then
      .mk t1 f1 p1 r1 i1 a1 true
    else
      if t1.isNone && f1.isNone && p1.isEmpty && r1.isEmpty &&
         i1.isNone && a1.isEmpty && !n1 then
        .mk t2 f2 p2 r2 i2 a2 n2
      else
        .mk t1 f1 p1 r1 i1 a1 n1
termination_by sizeOf s1 + sizeOf s2
decreasing_by
all_goals simp_wf
all_goals try omega
· have hle := emptySchema_sizeOf_le (JSchema.mk t2 f2 p2 r2 none a2 n2)
  simp at hle
  omega
· have hle := emptySchema_sizeOf_le (JSchema.mk t1 f1 p1 r1 none a1 n1)
  simp at hle
  omega

/-- The in-place update loop of `_merge_object_schemas` restricted to
the keys already present in `props1`: each `props1` entry keeps its
position, its schema merged with the `props2` schema of the same key
when one exists. -/
def mergePropsFrom (p2 : List (String × JSchema)) :
    List (String × JSchema) → List (String × JSchema)
  | [] => []
  | (k, v) :: rest =>
    (k, match h : findProp k p2 with
        | some w => mergeSchemas v w
        | none => v) :: mergePropsFrom p2 rest
termination_by l => sizeOf p2 + sizeOf l
decreasing_by
all_goals simp_wf
have hw := sizeOf_findProp h
omega

end

/-! Claim C3: probe rule monotonicity. -/

/-- Counterexample to C3 as stated: the claim quantifies over every
confidence in [0,1] and asserts that a falsified probe strictly
decreases the confidence; at confidence 0 the falsified update
0.5 times 0 equals 0, which is not strictly less than 0. -/
theorem c3_strict_decrease_counterexample :
    ((0:ℚ) ≤ 0 ∧ (0:ℚ) ≤ 1) ∧
    applyProbeResult 0 ProbeOutcome.falsified = 0 ∧
    ¬ applyProbeResult 0 ProbeOutcome.falsified < 0 := by
  refine ⟨⟨le_refl 0, by norm_num⟩, ?_, ?_⟩ <;> simp [applyProbeResult]

/-- Claim C3, amended: for confidence c in [0,1], a confirmed probe
yields exactly c + 0.2·(1 − c), which is ≥ c, and a falsified probe
yields exactly 0.5·c, which is strictly less than c whenever c > 0
(at c = 0 it is equal, not smaller). -/
theorem c3_probe_rule_amended (c : ℚ) (h0 : 0 ≤ c) (h1 : c ≤ 1) :
    applyProbeResult c ProbeOutcome.confirmed = c + (1 - c) * (1/5) ∧
    c ≤ applyProbeResult c ProbeOutcome.confirmed ∧
    applyProbeResult c ProbeOutcome.falsified = c * (1/2) ∧
    (0 < c → applyProbeResult c ProbeOutcome.falsified < c) := by
  refine ⟨rfl, ?_, rfl, ?_⟩
  · simp only [applyProbeResult]
    nlinarith
  · intro hc
    simp only [applyProbeResult]
    linarith

/-- Witness for the amended C3 at confidence 1/2: confirmed gives 3/5,
falsified gives 1/4 < 1/2. -/
theorem c3_probe_rule_amended_witness :
    applyProbeResult (1/2) ProbeOutcome.confirmed = 1/2 + (1 - 1/2) * (1/5) ∧
    (1/2 : ℚ) ≤ applyProbeResult (1/2) ProbeOutcome.confirmed ∧
    applyProbeResult (1/2) ProbeOutcome.falsified = (1/2) * (1/2) ∧
    (0 < (1/2 : ℚ) → applyProbeResult (1/2) ProbeOutcome.falsified < 1/2) :=
  c3_probe_rule_amended (1/2) (by norm_num) (by norm_num)

/-! Claim C4: session termination after the update phase, settled
against the live driver `_run_exploration_loop` (`control.py`). -/

/-- Counterexample to C4 as stated, against the live session driver:
with exactly fifteen consecutive explore steps producing no new
observation the claim demands termination, but the driver tests
`consecutive_no_new > 15` and continues (it stops only from sixteen
on); and with a configured maximum of 1000 iterations the loop budget
is capped at 100, so the driver terminates after 100 iterations, when
the iteration counter is still far below the configured maximum and no
other condition of the claimed predicate holds.  (The consecutive-error
condition of the claim has no counterpart in the driver at all: phase
exceptions are swallowed and the loop continues.) -/
theorem c4_live_termination_counterexample :
    updatePhaseShouldStop 15 [] = false ∧
    (15:Nat) ≥ 15 ∧
    updatePhaseShouldStop 16 [] = true ∧
    explorationLoopBound 1000 = 100 ∧
    (100:Nat) < 1000 := by
  refine ⟨by decide, by norm_num, by decide, by decide, by norm_num⟩

/-- Claim C4, amended: after the update phase the live session driver
terminates the session if and only if more than fifteen (i.e. at least
sixteen) consecutive explore steps produced no new observation, or
there is at least one hypothesis, more than 5 hypotheses are confirmed
and the mean confidence over all hypotheses exceeds 0.8; independently,
the iteration budget of the loop is the minimum of the configured
maximum and the hard cap 100, so it never exceeds either.  No
consecutive-error-count condition exists on the live path (the cited
LangGraph supervisor checks iteration and error budgets but is never
invoked). -/
theorem c4_live_termination_amended (consecutiveNoNew : Nat)
    (hypotheses : List Hypothesis) (configMax : Nat) :
    (updatePhaseShouldStop consecutiveNoNew hypotheses = true ↔
      (consecutiveNoNew > 15 ∨
        (hypotheses ≠ [] ∧ confirmedCount hypotheses > 5 ∧
         meanConfidence hypotheses > 4/5))) ∧
    explorationLoopBound configMax ≤ configMax ∧
    explorationLoopBound configMax ≤ 100 := by
  refine ⟨?_, Nat.min_le_left _ _, Nat.min_le_right _ _⟩
  unfold updatePhaseShouldStop
  split_ifs with h1 h2 <;> simp_all
  constructor
  · intro hA
    exact Or.inr ⟨List.ne_nil_of_length_pos h2, hA⟩
  · rintro (hn | ⟨hne, hA⟩)
    · omega
    · exact hA

/-! Claim C7: auth-variation probes and cookies. -/

/-- The request actually sent for an `auth_variation` probe by a
verifier holding one auth header and one stored cookie. -/
def c7SentRequest : SentProbeRequest :=
  executeProbeRequest [("session", "abc123")] "GET" "https://target.example.com/api/users/1"
    (probeHeaders ProbeKind.authVariation [("Authorization", "Bearer token123")])

/-- Claim C7, evaluated at the failing input: the `auth_variation`
header filter does strip the `Authorization` header (and the `cookie`
header key), but `_execute_probe` passes the stored verifier cookie
jar to the HTTP client on every request, so the executed probe still
carries the session cookie — contradicting the claim that the request
carries no cookies. -/
theorem c7_auth_variation_cookies_still_sent :
    c7SentRequest.headers.all
      (fun kv => !(strLower kv.1 == "authorization" || strLower kv.1 == "cookie")) = true ∧
    c7SentRequest.cookies = [("session", "abc123")] ∧
    c7SentRequest.cookies ≠ [] := by
  refine ⟨?_, rfl, ?_⟩ <;> decide

/-! Claim C8: FSM transitions and state existence. -/

/-- An FSM store holding a single recorded page state. -/
def c8Store : FSMStore := { pageStates := ["hash-login-page"], transitions := [] }

/-- Counterexample to C8 as stated: `add_transition` with a `to` hash
that was never recorded in the page-state table still stores the
transition row — the insert is unconditional and the claimed write-time
enforcement of invariant I5 does not exist (no foreign-key pragma, no
lookup). -/
theorem c8_unknown_state_counterexample :
    ((c8Store.addTransition "session-1" "hash-login-page" "hash-never-recorded"
        "click" "elem-3" true).2).transitions =
      [{ sessionId := "session-1"
         fromStateHash := "hash-login-page"
         toStateHash := "hash-never-recorded"
         actionType := "click"
         actionTarget := "elem-3"
         success := true }] ∧
    c8Store.pageStates.contains "hash-never-recorded" = false := by
  refine ⟨rfl, ?_⟩
  decide

/-- Claim C8, amended: `add_transition` is always a plain insert — the
stored transition list grows by exactly the new row on every call,
whether or not the referenced state hashes exist in the page-state
table. -/
theorem c8_add_transition_amended (store : FSMStore)
    (sessionId fromStateHash toStateHash actionType actionTarget : String) (success : Bool) :
    ((store.addTransition sessionId fromStateHash toStateHash actionType actionTarget
        success).2).transitions =
      store.transitions ++
        [{ sessionId := sessionId
           fromStateHash := fromStateHash
           toStateHash := toStateHash
           actionType := actionType
           actionTarget := actionTarget
           success := success }] := rfl

/-! Claim C9: critic fallback review. -/

/-- Counterexample to C9 as stated: with a single supporting observation
and current confidence 0.2 the fallback review recommends 0.2, not the
0.3 that an evidence-count-only rule would give. -/
theorem c9_fallback_counterexample :
    (fallbackEvaluation 1 (1/5)).recommendedConfidence = 1/5 ∧ ((1:ℚ)/5) ≠ 3/10 := by
  constructor
  · simp [fallbackEvaluation]
    norm_num
  · norm_num

/-- Claim C9, amended: the fallback review recommends
`min(current confidence, cap)` where the cap alone comes from the
evidence count (≤1 → 0.3, ≤3 → 0.5, >3 → 0.7), and it attaches exactly
two generic alternative explanations. -/
theorem c9_fallback_amended (n : Nat) (c : ℚ) :
    (fallbackEvaluation n c).recommendedConfidence =
      min c (if n ≤ 1 then 3/10 else if n ≤ 3 then 1/2 else 7/10) ∧
    (fallbackEvaluation n c).alternativeExplanations.length = 2 := by
  unfold fallbackEvaluation
  refine ⟨?_, rfl⟩
  by_cases h1 : n ≤ 1 <;> by_cases h3 : n ≤ 3 <;> simp [h1, h3]

/-! Claim C1: duplicate hypotheses in the store. -/

/-- Kwargs of an endpoint-schema creation keyed by
(`endpoint_schema`, `/api/users/{id}`, `GET`). -/
def c1Kwargs : CreateKwargs :=
  { endpointPattern := some "/api/users/\x7bid\x7d", method := some "GET" }

/-- The store after two `create` calls with the identical
(kind, pattern, method) key. -/
def c1StoreAfterTwo : HypothesisStore :=
  ((((⟨[], 0⟩ : HypothesisStore).create HypothesisType.endpointSchema
      "GET /api/users/id returns a user object" "analyst" [] c1Kwargs).2).create
      HypothesisType.endpointSchema
      "GET /api/users/id returns a user object" "analyst" [] c1Kwargs).2

/-- Counterexample to C1 as stated: the second `create` with an already
present (kind, pattern, method) key is not rejected — after the two
calls both hypotheses are stored, and both are of kind
`endpoint_schema` with the identical pattern and method. -/
theorem c1_duplicate_create_counterexample :
    c1StoreAfterTwo.hypotheses.length = 2 ∧
    c1StoreAfterTwo.hypotheses.all (fun h =>
      decide (h.type = HypothesisType.endpointSchema ∧
        h.endpointPattern = some "/api/users/\x7bid\x7d" ∧
        h.method = some "GET")) = true := by
  refine ⟨rfl, ?_⟩
  decide

/-- Claim C1, amended: `HypothesisStore.create` performs no duplicate
check of any kind — every call appends exactly one new hypothesis to
the store, whatever (kind, pattern, method) keys already exist;
deduplication is left to callers. -/
theorem c1_create_always_inserts (store : HypothesisStore) (type : HypothesisType)
    (description createdBy : String) (evidence : List EvidenceRef) (kw : CreateKwargs) :
    ((store.create type description createdBy evidence kw).2).hypotheses =
      store.hypotheses ++ [(store.create type description createdBy evidence kw).1] := rfl

/-! Claim C2: double application of a critic review. -/

/-- A hypothesis at confidence 0.5 with an empty confidence history. -/
def c2Hypothesis : Hypothesis :=
  { id := 0
    type := HypothesisType.endpointSchema
    description := "GET /api/users/id returns a user object"
    endpointPattern := some "/api/users/\x7bid\x7d"
    method := some "GET"
    supportingEvidence := []
    contradictingEvidence := []
    competingExplanations := []
    untestedAssumptions := []
    confidence := 1/2
    confidenceHistory := []
    status := HypothesisStatus.active
    revision := 1
    createdBy := "analyst"
    lastModifiedBy := "analyst" }

/-- An accepting critic review. -/
def c2Review : CriticEvaluation :=
  { hypothesisId := 0
    verdict := CriticVerdict.accept
    alternativeExplanations := ["Evidence may be coincidental"]
    untestedAssumptions := []
    missingEvidence := []
    contradictions := []
    originalConfidence := 1/2
    recommendedConfidence := 1/2
    adjustmentReason := "Accepted with minor reservations" }

/-- Counterexample to C2 as stated: applying the identical accepting
review twice moves the confidence from 0.5 to 0.55 and then to 0.605 —
not the same final confidence as a single application — and appends two
confidence events whose (event kind, reason, agent) keys are identical,
where the claim allows at most one event in total. -/
theorem c2_double_apply_counterexample :
    (applyCriticEvaluationHyp c2Hypothesis c2Review).confidence = 11/20 ∧
    (applyCriticEvaluationHyp (applyCriticEvaluationHyp c2Hypothesis c2Review)
        c2Review).confidence = 121/200 ∧
    ((121:ℚ)/200) ≠ 11/20 ∧
    (applyCriticEvaluationHyp (applyCriticEvaluationHyp c2Hypothesis c2Review)
        c2Review).confidenceHistory.length = 2 ∧
    ((applyCriticEvaluationHyp (applyCriticEvaluationHyp c2Hypothesis c2Review)
        c2Review).confidenceHistory.map
      (fun e => (e.eventType, e.reason, e.agent))).dedup.length = 1 := by
  refine ⟨?_, ?_, by norm_num, rfl, ?_⟩
  · simp [applyCriticEvaluationHyp, applyCriticReview, c2Hypothesis, c2Review, min_def]
    norm_num
  · simp [applyCriticEvaluationHyp, applyCriticReview, c2Hypothesis, c2Review, min_def]
    norm_num
  · decide

/-- Claim C2, amended: a double application of the identical review
composes rather than deduplicates — the final confidence is the critic
rule applied twice to the original confidence, and each application
appends exactly one confidence event (two in total); the final
confidence agrees with a single application only for `challenge`
verdicts. -/
theorem c2_double_apply_composes (h : Hypothesis) (r : CriticEvaluation) :
    (applyCriticEvaluationHyp (applyCriticEvaluationHyp h r) r).confidence =
      applyCriticReview (applyCriticReview h.confidence r) r ∧
    (applyCriticEvaluationHyp (applyCriticEvaluationHyp h r) r).confidenceHistory.length =
      h.confidenceHistory.length + 2 ∧
    (r.verdict = CriticVerdict.challenge →
      (applyCriticEvaluationHyp (applyCriticEvaluationHyp h r) r).confidence =
        (applyCriticEvaluationHyp h r).confidence) := by
  refine ⟨rfl, by simp [applyCriticEvaluationHyp], ?_⟩
  intro hv
  show applyCriticReview (applyCriticReview h.confidence r) r =
    applyCriticReview h.confidence r
  simp [applyCriticReview, hv, min_assoc]

/-- Witness for the amended C2, at the concrete hypothesis and review
of the counterexample. -/
theorem c2_double_apply_composes_witness :
    (applyCriticEvaluationHyp (applyCriticEvaluationHyp c2Hypothesis c2Review)
        c2Review).confidence =
      applyCriticReview (applyCriticReview c2Hypothesis.confidence c2Review) c2Review ∧
    (applyCriticEvaluationHyp (applyCriticEvaluationHyp c2Hypothesis c2Review)
        c2Review).confidenceHistory.length =
      c2Hypothesis.confidenceHistory.length + 2 ∧
    (c2Review.verdict = CriticVerdict.challenge →
      (applyCriticEvaluationHyp (applyCriticEvaluationHyp c2Hypothesis c2Review)
          c2Review).confidence =
        (applyCriticEvaluationHyp c2Hypothesis c2Review).confidence) :=
  c2_double_apply_composes c2Hypothesis c2Review

/-! Claim C10: explicit confidence override in `create`. -/

/-- Claim C10: when the `confidence` kwarg is present (within the
pydantic field bound [0,1], outside which the `Hypothesis` constructor
raises), `create` uses it verbatim as the initial confidence — neither
the initial-confidence rule nor its clamp to [0.1, 1.0] runs — and the
single initial confidence event records that value as its new
confidence. -/
theorem c10_confidence_override (store : HypothesisStore) (type : HypothesisType)
    (description createdBy : String) (evidence : List EvidenceRef) (kw : CreateKwargs)
    (c : ℚ) (hkw : kw.confidence = some c) (hc0 : 0 ≤ c) (hc1 : c ≤ 1) :
    ((store.create type description createdBy evidence kw).1).confidence = c ∧
    ((store.create type description createdBy evidence kw).1).confidenceHistory.map
      (fun e => e.newConfidence) = [c] := by
  unfold HypothesisStore.create
  simp [hkw]

/-- Kwargs of the 401 permission-gate hypothesis emitted by
`BusinessLogicAgent._detect_permissions` (`business_logic.py` lines
238-265): an explicit confidence of 0.7 and two untested assumptions. -/
def businessLogic401Kwargs : CreateKwargs :=
  { confidence := some (7/10)
    untestedAssumptions := ["May accept different auth methods", "Role requirements unknown"] }

/-- The hypothesis created from the BusinessLogic 401 kwargs on an empty
store. -/
def c10CreatedHypothesis : Hypothesis :=
  ((⟨[], 0⟩ : HypothesisStore).create HypothesisType.permissionGate
    "Endpoint /api/orders requires authentication" "business_logic" []
    businessLogic401Kwargs).1

/-- Witness for C10 at the BusinessLogic 401 kwargs: the created
hypothesis has confidence exactly 0.7 and the initial event records
0.7, although the initial-confidence rule on the same inputs (one
observation, two untested assumptions) would have produced the clamped
0.1. -/
theorem c10_confidence_override_witness :
    businessLogic401Kwargs.confidence = some (7/10) ∧
    (0:ℚ) ≤ 7/10 ∧ (7/10:ℚ) ≤ 1 ∧
    (c10CreatedHypothesis.confidence = 7/10 ∧
     c10CreatedHypothesis.confidenceHistory.map (fun e => e.newConfidence) = [7/10]) ∧
    initialConfidence 1 0 2 = 1/10 ∧ ((1:ℚ)/10) ≠ 7/10 :=
  ⟨rfl, by norm_num, by norm_num,
   c10_confidence_override (⟨[], 0⟩ : HypothesisStore) HypothesisType.permissionGate
     "Endpoint /api/orders requires authentication" "business_logic" []
     businessLogic401Kwargs (7/10) rfl (by norm_num) (by norm_num),
   by norm_num [initialConfidence, min_def, max_def], by norm_num⟩

/-! Claim C5: interceptor classification of API traffic. -/

/-- A captured pair for a `.json` endpoint: 200 response, JSON
content-type, no tracker substring in the URL. -/
def c5JsonObservation : NetworkObservation :=
  { url := "https://shop.example.com/products.json"
    statusCode := 200
    contentType := "application/json" }

/-- Counterexample to C5 as stated: the pair has a response, matches no
tracker block-list pattern, its URL path ends in `.json` (and its
content-type is even `application/json`), yet the interceptor rejects
it — `.json` URLs always contain the static-asset substring `.js`, so
the static-asset skip fires before any API check runs. -/
theorem c5_json_rejected_counterexample :
    c5JsonObservation.statusCode ≠ 0 ∧
    trackerPatterns.all (fun t => !(strContains (strLower c5JsonObservation.url) t)) = true ∧
    c5JsonObservation.url = "https://shop.example.com/products" ++ ".json" ∧
    c5JsonObservation.contentType = "application/json" ∧
    isRelevantApiCall c5JsonObservation = false := by
  refine ⟨by decide, by decide, rfl, rfl, by decide⟩

/-- Claim C5, amended: the interceptor classifies a pair as API traffic
exactly when it has a response, its lowercased URL contains none of the
static-asset substrings (`.js` among them, which swallows every `.json`
URL) and none of the tracker substrings, and either the URL contains one
of `/api/`, `/v1/`, `/v2/`, `/graphql`, `/rest/`, `/data/` (there is no
`/v3/` pattern and no `.json`-suffix rule) or the lowercased
content-type contains `application/json` or `application/xml`. -/
theorem c5_classification_amended (obs : NetworkObservation) :
    isRelevantApiCall obs = true ↔
      (obs.statusCode ≠ 0 ∧
       (∀ p ∈ staticPatterns, strContains (strLower obs.url) p = false) ∧
       (∀ t ∈ trackerPatterns, strContains (strLower obs.url) t = false) ∧
       ((∃ p ∈ apiPatterns, strContains (strLower obs.url) p = true) ∨
        strContains (strLower obs.contentType) "application/json" = true ∨
        strContains (strLower obs.contentType) "application/xml" = true)) := by
  simp only [isRelevantApiCall]
  split_ifs with h0 hs ht ha hj hx <;>
    simp_all [List.any_eq_true, Bool.not_eq_true]

/-! Claim C6: merging a null schema with a typed schema. -/

/-- The schema dict for an observed JSON `null`. -/
def nullTypeSchema : JSchema := .mk (some "null") none [] [] none [] false

/-- The schema dict for an observed JSON string. -/
def stringTypeSchema : JSchema := .mk (some "string") none [] [] none [] false

/-- Counterexample to C6 as stated: merging a `null` schema with a
`string` schema yields the `anyOf` of the two (both `type` entries are
present, so the `anyOf` branch fires before the nullable-marking branch
can) — not the string schema marked nullable. -/
theorem c6_null_merge_counterexample :
    mergeSchemas nullTypeSchema stringTypeSchema =
      JSchema.mk none none [] [] none [nullTypeSchema, stringTypeSchema] false ∧
    mergeSchemas nullTypeSchema stringTypeSchema ≠
      JSchema.mk (some "string") none [] [] none [] true := by
  have hmerge : mergeSchemas nullTypeSchema stringTypeSchema =
      JSchema.mk none none [] [] none [nullTypeSchema, stringTypeSchema] false := by
    simp [mergeSchemas, nullTypeSchema, stringTypeSchema]
  refine ⟨hmerge, ?_⟩
  rw [hmerge]
  simp

/-- Claim C6, amended: when one side has type `null` and the other side
any non-null type, the merged result is `{anyOf: [s1, s2]}` — the
observed non-null type survives as a branch of the `anyOf`, but the
result is not the non-null schema marked nullable; the nullable-marking
branch of the merger runs only when the other side has no `type` entry
at all. -/
theorem c6_null_merge_amended (s1 s2 : JSchema) (t : String) (ht : t ≠ "null") :
    (s1.type = some "null" → s2.type = some t →
      mergeSchemas s1 s2 = JSchema.mk none none [] [] none [s1, s2] false) ∧
    (s1.type = some t → s2.type = some "null" →
      mergeSchemas s1 s2 = JSchema.mk none none [] [] none [s1, s2] false) := by
  obtain ⟨t1, f1, p1, r1, i1, a1, n1⟩ := s1
  obtain ⟨t2, f2, p2, r2, i2, a2, n2⟩ := s2
  constructor <;> intro h1 h2 <;> simp only [JSchema.type] at h1 h2 <;> subst h1 <;> subst h2 <;>
    rw [mergeSchemas.eq_def] <;> simp [ht, Ne.symm ht]

/-- Witness for the amended C6 at the null/string pair. -/
theorem c6_null_merge_amended_witness :
    ("string" ≠ "null") ∧
    nullTypeSchema.type = some "null" ∧
    stringTypeSchema.type = some "string" ∧
    mergeSchemas nullTypeSchema stringTypeSchema =
      JSchema.mk none none [] [] none [nullTypeSchema, stringTypeSchema] false :=
  ⟨by decide, rfl, rfl,
   (c6_null_merge_amended nullTypeSchema stringTypeSchema "string" (by decide)).1 rfl rfl⟩

end BBWI
